import Mathlib

/-!
Verification development for the "Destiny Tarot" three-card divination app
(`src/index.tsx`).  The app's session orchestration core is shallowly
embedded below: the static deck catalog, the card-metadata derivation, the
jittered circular layout generator, the draw engine, and the session state
machine with its timers and in-flight generative-service requests.

Modelling conventions:
* JavaScript numbers that matter here are exact rationals, so all numeric
  state is `ℚ`; `Math.random()` is modelled as an explicit stream
  `rand : ℕ → ℚ` together with a cursor into the stream, each call to
  `Math.random()` reading one fresh cell.
* JavaScript string primitives (`includes`, `trim`, `split(' ')[0]`) are
  modelled as structural functions over the character list of the string,
  with the same semantics on the strings this program uses.
* React `useState` fields become the fields of `AppState`; the `useMemo`
  card layout recomputes exactly when one of its dependencies
  (`layoutSeed`, `screenWidth`, `isMobile`) changes, i.e. inside
  `handleStart` and on an actual width change.
* `setTimeout` callbacks and in-flight generative-service requests become
  pending tasks in a `World`; firing a timer or resolving a request is an
  explicit event, legal only while the task is pending.  The handlers are
  translated verbatim: none of them consults any session-generation tag.
* The layout slot keeps `finalRadius` and `finalAngleDeg`; the source's
  `x`/`y` are the `cos`/`sin` images of exactly these two rationals, so
  equality/inequality of the embedded slot record mirrors the source slot
  (the source also returns `angle := rotation` and `z` directly).
-/

namespace TarotApp

/-- Lines 8-15: the 22 Major Arcana names. -/
def MAJOR_ARCANA : List String :=
  ["The Fool (愚者)", "The Magician (魔术师)", "The High Priestess (女祭司)", "The Empress (皇后)",
   "The Emperor (皇帝)", "The Hierophant (教皇)", "The Lovers (恋人)", "The Chariot (战车)",
   "Strength (力量)", "The Hermit (隐士)", "Wheel of Fortune (命运之轮)", "Justice (正义)",
   "The Hanged Man (倒吊人)", "Death (死神)", "Temperance (节制)", "The Devil (恶魔)",
   "The Tower (高塔)", "The Star (星星)", "The Moon (月亮)", "The Sun (太阳)",
   "Judgement (审判)", "The World (世界)"]

/-- Line 17: the four suits. -/
def SUITS : List String := ["Wands (权杖)", "Cups (圣杯)", "Swords (宝剑)", "Pentacles (星币)"]

/-- Line 18: the fourteen ranks. -/
def RANKS : List String :=
  ["Ace", "Two", "Three", "Four", "Five", "Six", "Seven", "Eight", "Nine", "Ten",
   "Page", "Knight", "Queen", "King"]

/-- Lines 20-23: the 78-entry deck, majors first, then `rank of suit` in
suit-major order. -/
def FULL_DECK : List String :=
  MAJOR_ARCANA ++ SUITS.flatMap (fun suit => RANKS.map (fun rank => rank ++ " of " ++ suit))

/-- Substring test on character lists, used to model JavaScript
`haystack.includes(needle)`. -/
def chInfix (needle : List Char) : List Char → Bool
  | [] => needle.isEmpty
  | c :: cs => needle.isPrefixOf (c :: cs) || chInfix needle cs

/-- JavaScript `haystack.includes(needle)`. -/
def jsIncludes (haystack needle : String) : Bool :=
  chInfix needle.data haystack.data

/-- JavaScript `s.trim()`: strips leading and trailing whitespace. -/
def jsTrim (s : String) : String :=
  ⟨((s.data.dropWhile Char.isWhitespace).reverse.dropWhile Char.isWhitespace).reverse⟩

/-- JavaScript `s.split(' ')[0]`: the prefix of `s` before the first
space (the whole string when it has no space). -/
def firstWord (s : String) : String :=
  ⟨s.data.takeWhile (fun c => c ≠ ' ')⟩

/-- Line 39: the Roman-numeral lookup table, in JavaScript insertion order. -/
def romanLookup : List (String × Nat) :=
  [("M", 1000), ("CM", 900), ("D", 500), ("CD", 400), ("C", 100), ("XC", 90),
   ("L", 50), ("XL", 40), ("X", 10), ("IX", 9), ("V", 5), ("IV", 4), ("I", 1)]

/-- Lines 41-46: the inner `while (num >= lookup[i])` loop of `toRoman`,
appending `sym` and subtracting `v` while possible.  The structural `fuel`
argument bounds the iteration count; called with `fuel := num` it can never
run out because each iteration removes at least `v ≥ 1` from `num`. -/
def romanLoop (sym : String) (v : Nat) : Nat → Nat → String × Nat
  | 0, num => ("", num)
  | fuel + 1, num =>
    if 0 < v ∧ v ≤ num then
      let r := romanLoop sym v fuel (num - v)
      (sym ++ r.1, r.2)
    else ("", num)

/-- Lines 37-48: `toRoman`, including the special case `toRoman 0 = "0"`. -/
def toRoman (num : Nat) : String :=
  if num = 0 then "0"
  else
    (romanLookup.foldl
      (fun (acc : String × Nat) (p : String × Nat) =>
        let r := romanLoop p.1 p.2 acc.2 acc.2
        (acc.1 ++ r.1, r.2))
      ("", num)).1

/-- The observable part of the metadata record returned by
`getCardMetadata` (lines 50-90); `colorTheme` and `Icon` are presentation
only and are determined by the same branch structure. -/
structure CardMeta where
  isMajor : Bool
  number : String
  suit : String
deriving DecidableEq

/-- Lines 50-90: `getCardMetadata`.  `isMajor` is decided by substring
matching against the first word of each major name; the numeral comes from
an exact `indexOf` into `MAJOR_ARCANA` (modelled by `findIdx?`, with the
JavaScript `index !== -1` check becoming the `Option` match); the suit
falls through the `includes` chain with the JavaScript default
`"Major"`. -/
def getCardMetadata (name : String) : CardMeta :=
  let isMajor := MAJOR_ARCANA.any (fun m => jsIncludes name (firstWord m))
  if isMajor then
    let number :=
      match MAJOR_ARCANA.findIdx? (fun m => m == name) with
      | some index => toRoman index
      | none => ""
    { isMajor := true, number := number, suit := "Major" }
  else
    let suit :=
      if jsIncludes name "Wands" then "Wands"
      else if jsIncludes name "Cups" then "Cups"
      else if jsIncludes name "Swords" then "Swords"
      else if jsIncludes name "Pentacles" then "Pentacles"
      else "Major"
    { isMajor := false, number := "", suit := suit }

/-- Line 26: the `AppState` lifecycle type. -/
inductive GameState
  | input
  | shuffling
  | selecting
  | reading
deriving DecidableEq

/-- Lines 28-34: one drawn card (`originalIndex` is never written by the
program and is omitted). -/
structure CardData where
  name : String
  isReversed : Bool
  id : Nat
  imageUrl : Option String := none
deriving DecidableEq

/-- One slot of the `cardLayout` memo (lines 116-135).  The source record
is `{x, y, angle, z}` with `x = cos(finalAngleRad) * finalRadius` and
`y = sin(finalAngleRad) * finalRadius`; we carry `finalRadius` and the
final angle in degrees, of which `x`/`y` are the (deterministic)
trigonometric images, plus the directly returned `rotation` (`angle`) and
`z`. -/
structure LayoutSlot where
  finalRadius : ℚ
  finalAngleDeg : ℚ
  rotation : ℚ
  z : Nat
deriving DecidableEq

/-- The `useState` fields of `App` (lines 95-102) plus the `cardLayout`
memo value (lines 116-135), which React caches against its dependency
list `[layoutSeed, screenWidth, isMobile]`. -/
structure AppState where
  gameState : GameState
  question : String
  deck : List String
  selectedCards : List CardData
  reading : String
  loadingReading : Bool
  layoutSeed : Nat
  screenWidth : Nat
  cardLayout : List LayoutSlot
deriving DecidableEq

/-- Line 113: `isMobile = screenWidth < 768`. -/
def appIsMobile (screenWidth : Nat) : Bool := screenWidth < 768

/-- Lines 116-135: the circular-layout memo body.  Slot `i` consumes the
two stream cells `k + 2*i` (radius jitter) and `k + 2*i + 1` (angle
jitter); a whole recomputation consumes 44 cells. -/
def cardLayoutGen (isMobile : Bool) (rand : ℕ → ℚ) (k : ℕ) : List LayoutSlot :=
  (List.range 22).map (fun (i : ℕ) =>
    let angleStep : ℚ := 360 / 22
    let baseAngleDeg : ℚ := -90 + (i : ℚ) * angleStep
    let radius : ℚ := if isMobile then 115 else 240
    let randomR : ℚ := (rand (k + 2 * i) - 1/2) * (if isMobile then 4 else 8)
    let randomAngle : ℚ := (rand (k + 2 * i + 1) - 1/2) * 2
    { finalRadius := radius + randomR
      finalAngleDeg := baseAngleDeg + randomAngle
      rotation := baseAngleDeg + 90 + randomAngle
      z := i })

/-- Lines 151-158: the draw performed inside `handleCardSelect`: a deck
index `Math.floor(Math.random() * deck.length)`, a reversal flag
`Math.random() > 0.8`, and the chosen slot as `id`. -/
def drawCard (deck : List String) (r1 r2 : ℚ) (slotId : Nat) : CardData :=
  { name := deck.getD (Int.floor (r1 * (deck.length : ℚ))).toNat ""
    isReversed := decide ((4 : ℚ)/5 < r2)
    id := slotId
    imageUrl := none }

/-- Line 208: the artwork merge
`prev.map(c => c.id === card.id ? { ...c, imageUrl } : c)`. -/
def mergeArtwork (slotId : Nat) (url : String) (cards : List CardData) : List CardData :=
  cards.map (fun c => if c.id = slotId then { c with imageUrl := some url } else c)

/-- Line 244: `response.text || "The spirits are silent. Please try again."`
together with the catch branch of line 248.  `none` models a thrown
request error; `some t` a response whose `text` is `t` (the falsy empty
string also selects the first fallback). -/
def narrativeText (res : Option String) : String :=
  match res with
  | some t => if t.isEmpty then "The spirits are silent. Please try again." else t
  | none => "An error occurred while communing with the spirits. Please check your connection and try again."

/-- Lines 254-259: `resetGame` — exactly four state updates, batched by
React into one atomic transition. -/
def resetGame (s : AppState) : AppState :=
  { s with gameState := .input, question := "", selectedCards := [], reading := "" }

/-- A scheduled `setTimeout` callback or in-flight generative-service
request.  The timer payloads are the values the source callbacks close
over. -/
inductive PendingTask
  | shuffleTimer
  | preReadingTimer (cards : List CardData) (q : String)
  | narrativeReq (cards : List CardData) (q : String)
  | imageReq (card : CardData)
deriving DecidableEq

/-- A whole-program configuration: React state, the `Math.random()` stream
cursor, and the pending timers/requests. -/
structure World where
  st : AppState
  cursor : ℕ
  pending : List PendingTask
deriving DecidableEq

/-- Lines 137-146: `handleStart`.  The guard is `!question.trim()`; on
success the state moves to `shuffling`, `layoutSeed` is bumped, the layout
memo recomputes during the same re-render (44 fresh stream cells), and the
2.5-second timer is scheduled. -/
def handleStart (rand : ℕ → ℚ) (w : World) : World :=
  if (jsTrim w.st.question).isEmpty then w
  else
    { st := { w.st with
        gameState := .shuffling
        layoutSeed := w.st.layoutSeed + 1
        cardLayout := cardLayoutGen (appIsMobile w.st.screenWidth) rand w.cursor }
      cursor := w.cursor + 44
      pending := w.pending ++ [.shuffleTimer] }

/-- Lines 148-169: `handleCardSelect`.  A count of three or more returns
immediately; otherwise two stream cells are consumed for the draw, the new
card is appended, and when the count reaches exactly three the 1-second
timer is scheduled with the completed selection and the question. -/
def handleCardSelect (rand : ℕ → ℚ) (w : World) (slotId : Nat) : World :=
  if 3 ≤ w.st.selectedCards.length then w
  else
    let newCard := drawCard w.st.deck (rand w.cursor) (rand (w.cursor + 1)) slotId
    let newSelection := w.st.selectedCards ++ [newCard]
    { st := { w.st with selectedCards := newSelection }
      cursor := w.cursor + 2
      pending :=
        if newSelection.length = 3
        then w.pending ++ [.preReadingTimer newSelection w.st.question]
        else w.pending }

/-- Completion of a pending task `t`: a no-op unless `t` is pending,
otherwise `t` is removed and its callback `f` runs against the current
React state. -/
def completeTask (t : PendingTask) (f : AppState → AppState) (w : World) : World :=
  if t ∈ w.pending then { w with st := f w.st, pending := w.pending.erase t } else w

/-- Lines 246-251: the narrative resolution callback — it writes the
narrative text and clears the loading flag, with no session-generation
check. -/
def narrativeUpdate (res : Option String) (s : AppState) : AppState :=
  { s with reading := narrativeText res, loadingReading := false }

/-- Lines 205-210: one artwork resolution callback — on a produced image
it merges by `id` into whatever `selectedCards` currently holds (no
session-generation check); on `null` it does nothing. -/
def imageUpdate (card : CardData) (res : Option String) (s : AppState) : AppState :=
  { s with selectedCards :=
      match res with
      | some url => mergeArtwork card.id url s.selectedCards
      | none => s.selectedCards }

/-- The external events: the three presentation-driven events (typing the
question, `handleStart`, `handleCardSelect`, `resetGame`), the
window-resize listener, and the asynchronous completions. -/
inductive Event
  | setQuestion (q : String)
  | start
  | selectSlot (slotId : Nat)
  | reset
  | resize (w : Nat)
  | fireShuffleTimer
  | firePreReadingTimer (cards : List CardData) (q : String)
  | resolveNarrative (cards : List CardData) (q : String) (res : Option String)
  | resolveImage (card : CardData) (res : Option String)
deriving DecidableEq

/-- One step of the whole program.  Guards reflect what the rendered UI
exposes: the question field only exists in `input` (lines 280-317), card
slots are clickable only in `selecting` and only for slots not already
selected (lines 350-388, `isSelected → return null`), and completions
require the corresponding task to be pending.  `handleStart` and
`resetGame` themselves carry no state guard beyond what the source
functions check.  The `firePreReadingTimer` callback (lines 164-167 and
200-210) moves to `reading`, sets the loading flag, clears the narrative,
and dispatches the three image requests followed by the narrative
request. -/
def step (rand : ℕ → ℚ) (w : World) : Event → World
  | .setQuestion q =>
    if w.st.gameState = .input then { w with st := { w.st with question := q } } else w
  | .start => handleStart rand w
  | .selectSlot slotId =>
    if w.st.gameState = .selecting ∧ slotId < 22
        ∧ ∀ c ∈ w.st.selectedCards, c.id ≠ slotId
    then handleCardSelect rand w slotId
    else w
  | .reset => { w with st := resetGame w.st }
  | .resize newWidth =>
    if newWidth = w.st.screenWidth then w
    else
      { w with
        st := { w.st with
          screenWidth := newWidth
          cardLayout := cardLayoutGen (appIsMobile newWidth) rand w.cursor }
        cursor := w.cursor + 44 }
  | .fireShuffleTimer =>
    completeTask .shuffleTimer (fun s => { s with gameState := .selecting }) w
  | .firePreReadingTimer cards q =>
    if PendingTask.preReadingTimer cards q ∈ w.pending then
      { st := { w.st with gameState := .reading, loadingReading := true, reading := "" }
        cursor := w.cursor
        pending := (w.pending.erase (.preReadingTimer cards q))
          ++ cards.map .imageReq ++ [.narrativeReq cards q] }
    else w
  | .resolveNarrative cards q res =>
    completeTask (.narrativeReq cards q) (narrativeUpdate res) w
  | .resolveImage card res =>
    completeTask (.imageReq card) (imageUpdate card res) w

/-- A run of the program: fold `step` over an event list. -/
def run (rand : ℕ → ℚ) (w : World) (es : List Event) : World :=
  es.foldl (step rand) w

/-- The mounted application (lines 95-111): initial state after the mount
effect has installed the deck, at the initial width 1000; the layout memo
has computed once, consuming stream cells 0-43. -/
def mountWorld (rand : ℕ → ℚ) : World :=
  { st := { gameState := .input
            question := ""
            deck := FULL_DECK
            selectedCards := []
            reading := ""
            loadingReading := false
            layoutSeed := 0
            screenWidth := 1000
            cardLayout := cardLayoutGen (appIsMobile 1000) rand 0 }
    cursor := 44
    pending := [] }

/-! ### General helper lemmas about the step function -/

theorem mergeArtwork_length (slotId : Nat) (url : String) (cards : List CardData) :
    (mergeArtwork slotId url cards).length = cards.length := by
  simp [mergeArtwork]

theorem select_noop (rand : ℕ → ℚ) (w : World) (slotId : ℕ)
    (h : 3 ≤ w.st.selectedCards.length) : step rand w (.selectSlot slotId) = w := by
  simp only [step, handleCardSelect, if_pos h]
  split <;> rfl

theorem count_le_three (rand : ℕ → ℚ) (w : World) (e : Event)
    (h : w.st.selectedCards.length ≤ 3) :
    (step rand w e).st.selectedCards.length ≤ 3 := by
  cases e
  all_goals simp only [step, handleStart, handleCardSelect, completeTask,
    narrativeUpdate, imageUpdate, resetGame]
  all_goals repeat' split
  all_goals try simp_all [mergeArtwork_length, List.length_append]
  all_goals omega

theorem count_mono_selecting (rand : ℕ → ℚ) (w : World) (e : Event)
    (h1 : w.st.gameState = .selecting)
    (h2 : (step rand w e).st.gameState = .selecting) :
    w.st.selectedCards.length ≤ (step rand w e).st.selectedCards.length := by
  cases e
  all_goals simp only [step, handleStart, handleCardSelect, completeTask,
    narrativeUpdate, imageUpdate, resetGame] at h2 ⊢
  all_goals repeat' split at h2
  all_goals repeat' split
  all_goals try simp_all [mergeArtwork_length, List.length_append]
  all_goals omega

/-- Invariant: whenever the session is in the `input` state, the
drawn-card sequence is empty.  It holds at mount and is preserved by
every event, because the only transition into `input` is `resetGame`,
which clears the sequence. -/
def InputEmptyInv (w : World) : Prop :=
  w.st.gameState = .input → w.st.selectedCards = []

theorem inputEmptyInv_step (rand : ℕ → ℚ) (w : World) (e : Event)
    (h : InputEmptyInv w) : InputEmptyInv (step rand w e) := by
  cases e
  all_goals simp only [InputEmptyInv, step, handleStart, handleCardSelect, completeTask,
    narrativeUpdate, imageUpdate, resetGame] at h ⊢
  all_goals repeat' split
  all_goals intro hg
  all_goals try exact h hg
  all_goals try simp_all
  all_goals simp [mergeArtwork]

theorem inputEmptyInv_run (rand : ℕ → ℚ) (es : List Event) (w : World)
    (h : InputEmptyInv w) : InputEmptyInv (run rand w es) := by
  induction es generalizing w with
  | nil => exact h
  | cons e es ih => exact ih _ (inputEmptyInv_step rand w e h)

theorem startGuardAux (rand : ℕ → ℚ) (w : World)
    (hinv : InputEmptyInv w) (hin : w.st.gameState = .input) :
    ((jsTrim w.st.question).isEmpty = true → step rand w .start = w) ∧
    ((jsTrim w.st.question).isEmpty = false →
      (step rand w .start).st.gameState = .shuffling ∧
      (step rand w .start).st.selectedCards = [] ∧
      (step rand w .start).st.cardLayout =
        cardLayoutGen (appIsMobile w.st.screenWidth) rand w.cursor ∧
      (step rand w .start).st.layoutSeed = w.st.layoutSeed + 1 ∧
      (step rand w .start).cursor = w.cursor + 44) := by
  constructor
  · intro he
    simp [step, handleStart, he]
  · intro he
    have hcards := hinv hin
    simp [step, handleStart, he, hcards]

/-! ### Commutation helpers for the reading orchestrator -/

theorem completeTask_comm (t1 t2 : PendingTask) (f1 f2 : AppState → AppState)
    (ht : t1 ≠ t2) (hf : ∀ s, f1 (f2 s) = f2 (f1 s)) (w : World) :
    completeTask t1 f1 (completeTask t2 f2 w) = completeTask t2 f2 (completeTask t1 f1 w) := by
  by_cases h1 : t1 ∈ w.pending <;> by_cases h2 : t2 ∈ w.pending
  · have h1e : t1 ∈ w.pending.erase t2 := (List.mem_erase_of_ne ht).mpr h1
    have h2e : t2 ∈ w.pending.erase t1 := (List.mem_erase_of_ne ht.symm).mpr h2
    simp [completeTask, h1, h2, h1e, h2e, hf, List.erase_comm]
  · have h2e : t2 ∉ w.pending.erase t1 := fun hm => h2 ((List.mem_erase_of_ne ht.symm).mp hm)
    simp [completeTask, h1, h2, h2e]
  · have h1e : t1 ∉ w.pending.erase t2 := fun hm => h1 ((List.mem_erase_of_ne ht).mp hm)
    simp [completeTask, h1, h2, h1e]
  · simp [completeTask, h1, h2]

theorem mergeArtwork_comm (i j : Nat) (hij : i ≠ j) (u v : String) (cards : List CardData) :
    mergeArtwork i u (mergeArtwork j v cards) = mergeArtwork j v (mergeArtwork i u cards) := by
  simp only [mergeArtwork, List.map_map]
  congr 1
  funext c
  by_cases h1 : c.id = i <;> by_cases h2 : c.id = j
  · exact absurd (h1 ▸ h2) hij
  all_goals simp_all [Function.comp]

theorem imageUpdate_comm (ca cb : CardData) (h : ca.id ≠ cb.id) (ra rb : Option String)
    (s : AppState) :
    imageUpdate ca ra (imageUpdate cb rb s) = imageUpdate cb rb (imageUpdate ca ra s) := by
  cases ra <;> cases rb <;> simp [imageUpdate, mergeArtwork_comm ca.id cb.id h]

theorem stepNI_comm (rand : ℕ → ℚ) (cards : List CardData) (q : String)
    (resN : Option String) (card : CardData) (res : Option String) (z : World) :
    step rand (step rand z (.resolveNarrative cards q resN)) (.resolveImage card res) =
    step rand (step rand z (.resolveImage card res)) (.resolveNarrative cards q resN) := by
  simp only [step]
  exact (completeTask_comm _ _ _ _ (fun hh => PendingTask.noConfusion hh)
    (fun s => by cases res <;> rfl) z).symm

theorem stepII_comm (rand : ℕ → ℚ) (ca cb : CardData) (h : ca.id ≠ cb.id)
    (ra rb : Option String) (z : World) :
    step rand (step rand z (.resolveImage ca ra)) (.resolveImage cb rb) =
    step rand (step rand z (.resolveImage cb rb)) (.resolveImage ca ra) := by
  simp only [step]
  exact completeTask_comm (.imageReq cb) (.imageReq ca) (imageUpdate cb rb) (imageUpdate ca ra)
    (fun hh => h (by injection hh with h2; exact (congrArg CardData.id h2).symm))
    (fun s => imageUpdate_comm cb ca h.symm rb ra s) z

theorem run_perm_of_comm (rand : ℕ → ℚ) :
    ∀ {l₁ l₂ : List Event}, l₁.Perm l₂ →
    (∀ e₁ ∈ l₁, ∀ e₂ ∈ l₁, ∀ z : World,
      step rand (step rand z e₁) e₂ = step rand (step rand z e₂) e₁) →
    ∀ w, run rand w l₁ = run rand w l₂ := by
  intro l₁ l₂ h
  induction h with
  | nil => intro _ w; rfl
  | cons x h ih =>
    intro hc w
    simp only [run, List.foldl_cons] at *
    exact ih (fun e₁ m1 e₂ m2 => hc e₁ (List.mem_cons_of_mem _ m1) e₂ (List.mem_cons_of_mem _ m2))
      (step rand w x)
  | swap x y l =>
    intro hc w
    simp only [run, List.foldl_cons]
    rw [hc y (by simp) x (by simp) w]
  | trans h1 h2 ih1 ih2 =>
    intro hc w
    rw [ih1 hc w, ih2 (fun e₁ m1 e₂ m2 => hc e₁ (h1.mem_iff.mpr m1) e₂ (h1.mem_iff.mpr m2)) w]

/-- The Roman numerals of the 22 Major Arcana ordinals, ordinal 0 included. -/
def romanNumerals22 : List String :=
  ["0", "I", "II", "III", "IV", "V", "VI", "VII", "VIII", "IX", "X",
   "XI", "XII", "XIII", "XIV", "XV", "XVI", "XVII", "XVIII", "XIX", "XX", "XXI"]

/-- A constant zero random stream, used for concrete witnesses. -/
def zeroRand : ℕ → ℚ := fun _ => 0

/-- A constant one-half random stream, used for concrete witnesses. -/
def halfRand : ℕ → ℚ := fun _ => 1/2

/-! ### Claim theorems -/

/-- C3: for every slot index `i < 22` and every random stream with values
in `[0,1)`, the generated layout slot `i` has base angle `-90 + i*(360/22)`
degrees, a radius `115` (compact) or `240` (full) perturbed by an
independent uniform jitter whose magnitude is at most `4` units in compact
display and at most `8` units in full display, an angle perturbed by an
independent jitter of magnitude at most `1` degree, and a rotation equal
to the base angle plus `90` plus that same angular jitter.  The two
jitters read the distinct stream cells `k+2i` and `k+2i+1`, so they are
independent of each other and of every other slot's jitters. -/
theorem c3_layout_geometry (isMobile : Bool) (rand : ℕ → ℚ) (k i : ℕ) (hi : i < 22)
    (hr : ∀ n, 0 ≤ rand n ∧ rand n < 1) :
    (cardLayoutGen isMobile rand k).length = 22 ∧
    (cardLayoutGen isMobile rand k).get? i = some
      { finalRadius := (if isMobile then (115:ℚ) else 240) +
          (rand (k + 2*i) - 1/2) * (if isMobile then 4 else 8)
        finalAngleDeg := (-90 + (i:ℚ) * (360/22)) + (rand (k + 2*i + 1) - 1/2) * 2
        rotation := (-90 + (i:ℚ) * (360/22)) + 90 + (rand (k + 2*i + 1) - 1/2) * 2
        z := i } ∧
    |(rand (k + 2*i) - 1/2) * (if isMobile then (4:ℚ) else 8)| ≤ (if isMobile then 4 else 8) ∧
    |(rand (k + 2*i + 1) - 1/2) * 2| ≤ 1 := by
  have habs : ∀ n, |rand n - 1/2| ≤ 1/2 := by
    intro n
    rcases hr n with ⟨a, b⟩
    rw [abs_le]
    constructor <;> linarith
  refine ⟨by simp [cardLayoutGen], ?_, ?_, ?_⟩
  · simp [cardLayoutGen, List.get?_map, List.get?_range, hi]
  · rw [abs_mul]
    have h1 := habs (k + 2*i)
    have h2 : |rand (k + 2*i) - 1/2| ≥ 0 := abs_nonneg _
    cases isMobile <;> simp <;> nlinarith
  · rw [abs_mul]
    have h1 := habs (k + 2*i + 1)
    have h2 : |rand (k + 2*i + 1) - 1/2| ≥ 0 := abs_nonneg _
    simp
    nlinarith

/-- Witness for C3 at `isMobile = true`, `rand = halfRand`, `k = 0`,
`i = 0`. -/
theorem c3_layout_geometry_witness :
    ((0:ℕ) < 22 ∧ ∀ n : ℕ, 0 ≤ halfRand n ∧ halfRand n < 1) ∧
    ((cardLayoutGen true halfRand 0).length = 22 ∧
     (cardLayoutGen true halfRand 0).get? 0 = some
       { finalRadius := (if true then (115:ℚ) else 240) +
           (halfRand (0 + 2*0) - 1/2) * (if true then 4 else 8)
         finalAngleDeg := (-90 + ((0:ℕ):ℚ) * (360/22)) + (halfRand (0 + 2*0 + 1) - 1/2) * 2
         rotation := (-90 + ((0:ℕ):ℚ) * (360/22)) + 90 + (halfRand (0 + 2*0 + 1) - 1/2) * 2
         z := 0 } ∧
     |(halfRand (0 + 2*0) - 1/2) * (if true then (4:ℚ) else 8)| ≤ (if true then 4 else 8) ∧
     |(halfRand (0 + 2*0 + 1) - 1/2) * 2| ≤ 1) :=
  ⟨⟨by decide, fun n => ⟨by norm_num [halfRand], by norm_num [halfRand]⟩⟩,
    c3_layout_geometry true halfRand 0 0 (by decide)
      (fun n => ⟨by norm_num [halfRand], by norm_num [halfRand]⟩)⟩

/-- A concrete reading-state session with a non-empty layout, used to
refute the layout-clearing part of the reset claim. -/
def c4state : AppState :=
  { gameState := .reading
    question := "q"
    deck := FULL_DECK
    selectedCards := []
    reading := "done"
    loadingReading := false
    layoutSeed := 2
    screenWidth := 1000
    cardLayout := [{ finalRadius := 240, finalAngleDeg := -90, rotation := 0, z := 0 }] }

/-- C4 (counterexample): `resetGame` does not clear the current layout to
its initial empty value — the layout of the session is carried over
unchanged, so the claim's "clears all Session fields (including the
current layout)" is false on this concrete state. -/
theorem c4_layout_survives_reset :
    (resetGame c4state).gameState = .input ∧
    (resetGame c4state).cardLayout = c4state.cardLayout ∧
    c4state.cardLayout ≠ [] := by
  refine ⟨rfl, rfl, ?_⟩
  simp [c4state]

/-- C4 (amended): resetting from any state yields the `input` state with
empty question, empty drawn-card sequence and empty narrative, in one
atomic update; the current layout, the loading flag, the layout seed, the
screen width, the deck, the pending tasks and the stream cursor are left
unchanged. -/
theorem c4_reset_amended (rand : ℕ → ℚ) (w : World) :
    step rand w .reset = { w with st := resetGame w.st } ∧
    (resetGame w.st).gameState = .input ∧
    (resetGame w.st).question = "" ∧
    (resetGame w.st).selectedCards = [] ∧
    (resetGame w.st).reading = "" ∧
    (resetGame w.st).cardLayout = w.st.cardLayout ∧
    (resetGame w.st).loadingReading = w.st.loadingReading ∧
    (resetGame w.st).layoutSeed = w.st.layoutSeed ∧
    (resetGame w.st).screenWidth = w.st.screenWidth ∧
    (resetGame w.st).deck = w.st.deck ∧
    (step rand w .reset).pending = w.pending ∧
    (step rand w .reset).cursor = w.cursor :=
  ⟨rfl, rfl, rfl, rfl, rfl, rfl, rfl, rfl, rfl, rfl, rfl, rfl⟩

/-- Witness for the amended C4 at the mounted world. -/
theorem c4_reset_amended_witness :
    step zeroRand (mountWorld zeroRand) .reset =
      { mountWorld zeroRand with st := resetGame (mountWorld zeroRand).st } :=
  (c4_reset_amended zeroRand (mountWorld zeroRand)).1

/-- C5: the drawn card's identifier comes from index `⌊r₁·78⌋` into the
78-entry deck; for every index `j < 78` the preimage of `j` under the
index map is the interval `[j/78, (j+1)/78)` of width `1/78` (uniformity
over all 78 entries), the orientation is Reversed exactly when the
independent second random value exceeds `0.8` (the preimage `(4/5, 1)` of
width `1/5`, i.e. probability `0.2`), and the accepted selection appends
the drawn card with no deduplication against previously drawn names. -/
theorem c5_draw_distribution (r1 r2 : ℚ) (h0 : 0 ≤ r1) (h1 : r1 < 1) :
    FULL_DECK.length = 78 ∧
    (∀ slotId, (drawCard FULL_DECK r1 r2 slotId).name =
        FULL_DECK.getD (Int.floor (r1 * 78)).toNat "" ∧
        (Int.floor (r1 * 78)).toNat < 78) ∧
    (∀ j : ℕ, j < 78 →
      ((Int.floor (r1 * 78)).toNat = j ↔ (j : ℚ)/78 ≤ r1 ∧ r1 < ((j:ℚ)+1)/78)) ∧
    (∀ slotId, (drawCard FULL_DECK r1 r2 slotId).isReversed = true ↔ (4:ℚ)/5 < r2) ∧
    (∀ (rand : ℕ → ℚ) (w : World) (slotId : ℕ),
      w.st.gameState = .selecting → slotId < 22 →
      (∀ c ∈ w.st.selectedCards, c.id ≠ slotId) →
      w.st.selectedCards.length < 3 →
      (step rand w (.selectSlot slotId)).st.selectedCards =
        w.st.selectedCards ++ [drawCard w.st.deck (rand w.cursor) (rand (w.cursor+1)) slotId]) := by
  have hfn : (0:ℤ) ≤ Int.floor (r1 * 78) := Int.floor_nonneg.mpr (by positivity)
  have hflt : Int.floor (r1 * 78) < 78 := by
    rw [Int.floor_lt]
    push_cast
    nlinarith
  refine ⟨by decide, ?_, ?_, ?_, ?_⟩
  · intro slotId
    have hlen : ((FULL_DECK.length : ℚ)) = 78 := by
      norm_num [show FULL_DECK.length = 78 from by decide]
    constructor
    · simp [drawCard, hlen]
    · omega
  · intro j hj
    have heq : ((Int.floor (r1 * 78)).toNat = j) ↔ Int.floor (r1 * 78) = (j:ℤ) := by omega
    rw [heq, Int.floor_eq_iff, div_le_iff (by norm_num : (0:ℚ) < 78),
      lt_div_iff (by norm_num : (0:ℚ) < 78)]
    push_cast
    constructor <;> rintro ⟨a, b⟩ <;> exact ⟨by linarith, by linarith⟩
  · intro slotId
    simp [drawCard]
  · intro rand w slotId hg hlt hfree hcount
    simp only [step, handleCardSelect]
    rw [if_pos ⟨hg, hlt, hfree⟩, if_neg (by omega)]

/-- Witness for C5 at `r₁ = 1/2`, `r₂ = 9/10`, `j = 39`. -/
theorem c5_draw_distribution_witness :
    ((0:ℚ) ≤ 1/2 ∧ (1:ℚ)/2 < 1 ∧ (39:ℕ) < 78) ∧
    ((Int.floor ((1:ℚ)/2 * 78)).toNat = 39 ↔
      ((39:ℕ) : ℚ)/78 ≤ 1/2 ∧ (1:ℚ)/2 < (((39:ℕ):ℚ)+1)/78) :=
  ⟨⟨by norm_num, by norm_num, by norm_num⟩,
    (c5_draw_distribution (1/2) (9/10) (by norm_num) (by norm_num)).2.2.1 39 (by norm_num)⟩

/-- C6: selecting a slot when the drawn-card count is already 3 is a
complete no-op (the whole world, state and pending tasks included, is
unchanged, and the step function is total so no error is raised); the
count never exceeds 3 under any event; and the count is non-decreasing
across any event that keeps the session in the `selecting` state. -/
theorem c6_select_noop_count_invariant :
    (∀ (rand : ℕ → ℚ) (w : World) (slotId : ℕ), 3 ≤ w.st.selectedCards.length →
      step rand w (.selectSlot slotId) = w) ∧
    (∀ (rand : ℕ → ℚ) (w : World) (e : Event), w.st.selectedCards.length ≤ 3 →
      (step rand w e).st.selectedCards.length ≤ 3) ∧
    (∀ (rand : ℕ → ℚ) (w : World) (e : Event), w.st.gameState = .selecting →
      (step rand w e).st.gameState = .selecting →
      w.st.selectedCards.length ≤ (step rand w e).st.selectedCards.length) :=
  ⟨select_noop, count_le_three, count_mono_selecting⟩

/-- A concrete selecting-state session holding three drawn cards. -/
def c6world : World :=
  { st := { gameState := .selecting
            question := "q"
            deck := []
            selectedCards := [{ name := "a", isReversed := false, id := 0 },
                              { name := "b", isReversed := true, id := 1 },
                              { name := "c", isReversed := false, id := 2 }]
            reading := ""
            loadingReading := false
            layoutSeed := 1
            screenWidth := 1000
            cardLayout := [] }
    cursor := 0
    pending := [] }

/-- Witness for C6: a fourth selection on a full three-card session is a
no-op. -/
theorem c6_select_noop_count_invariant_witness :
    3 ≤ c6world.st.selectedCards.length ∧
    step zeroRand c6world (.selectSlot 5) = c6world :=
  ⟨by decide, c6_select_noop_count_invariant.1 zeroRand c6world 5 (by decide)⟩

/-- C7: in every reachable world, while in the `input` state the
drawn-card sequence is empty; a `start` event with a whitespace-only
question leaves the world completely unchanged (silent rejection, no
error), and a `start` event with a question that is non-empty after
trimming moves the session to `shuffling`, leaves the drawn-card sequence
empty, and computes a fresh layout from 44 previously unused random
stream cells while bumping the layout seed.  (The Begin-Divination button
of lines 306-314 is disabled by the same `!question.trim()` condition, so
the rejection is silent in the UI as well.) -/
theorem c7_start_validation :
    (∀ (rand : ℕ → ℚ) (es : List Event), InputEmptyInv (run rand (mountWorld rand) es)) ∧
    (∀ (rand : ℕ → ℚ) (w : World), InputEmptyInv w → w.st.gameState = .input →
      ((jsTrim w.st.question).isEmpty = true → step rand w .start = w) ∧
      ((jsTrim w.st.question).isEmpty = false →
        (step rand w .start).st.gameState = .shuffling ∧
        (step rand w .start).st.selectedCards = [] ∧
        (step rand w .start).st.cardLayout =
          cardLayoutGen (appIsMobile w.st.screenWidth) rand w.cursor ∧
        (step rand w .start).st.layoutSeed = w.st.layoutSeed + 1 ∧
        (step rand w .start).cursor = w.cursor + 44)) :=
  ⟨fun rand es => inputEmptyInv_run rand es _ (fun _ => rfl), startGuardAux⟩

/-- A concrete input-state world with a non-blank question. -/
def c7world : World :=
  { st := { gameState := .input
            question := "q"
            deck := FULL_DECK
            selectedCards := []
            reading := ""
            loadingReading := false
            layoutSeed := 0
            screenWidth := 1000
            cardLayout := [] }
    cursor := 0
    pending := [] }

/-- Witness for C7: the accepted transition out of `c7world`. -/
theorem c7_start_validation_witness :
    (step zeroRand c7world .start).st.gameState = .shuffling ∧
    (step zeroRand c7world .start).st.selectedCards = [] ∧
    (step zeroRand c7world .start).st.cardLayout =
      cardLayoutGen (appIsMobile c7world.st.screenWidth) zeroRand c7world.cursor ∧
    (step zeroRand c7world .start).st.layoutSeed = c7world.st.layoutSeed + 1 ∧
    (step zeroRand c7world .start).cursor = c7world.cursor + 44 :=
  (c7_start_validation.2 zeroRand c7world (fun _ => rfl) rfl).2 rfl

/-- C8: a narrative-request failure resolves in-band to the fixed fallback
narrative with the loading flag cleared, consuming the pending request and
scheduling no retry; a per-card image failure is silent: the React state
is bit-for-bit unchanged (no fallback image, the card's `artworkUri`
remains absent) and only the pending request is consumed.  Both are total
transitions of the embedded step function, so no failure escapes the
orchestrator boundary. -/
theorem c8_failures_in_band (rand : ℕ → ℚ) (w : World)
    (cards : List CardData) (q : String) (card : CardData)
    (hn : PendingTask.narrativeReq cards q ∈ w.pending)
    (hi : PendingTask.imageReq card ∈ w.pending) :
    step rand w (.resolveNarrative cards q none) =
      { w with
        st := { w.st with
          reading := "An error occurred while communing with the spirits. Please check your connection and try again."
          loadingReading := false }
        pending := w.pending.erase (.narrativeReq cards q) } ∧
    (step rand w (.resolveImage card none)).st = w.st ∧
    step rand w (.resolveImage card none) =
      { w with pending := w.pending.erase (.imageReq card) } := by
  refine ⟨?_, ?_, ?_⟩
  · simp [step, completeTask, hn, narrativeUpdate, narrativeText]
  · simp [step, completeTask, hi, imageUpdate]
  · simp [step, completeTask, hi, imageUpdate]

/-- A concrete reading-state world with one narrative request and one
image request in flight. -/
def c8world : World :=
  { st := { gameState := .reading
            question := "q"
            deck := []
            selectedCards := [{ name := "n", isReversed := false, id := 0 }]
            reading := ""
            loadingReading := true
            layoutSeed := 1
            screenWidth := 1000
            cardLayout := [] }
    cursor := 0
    pending := [.narrativeReq [{ name := "n", isReversed := false, id := 0 }] "q",
                .imageReq { name := "n", isReversed := false, id := 0 }] }

/-- Witness for C8: a failed image request leaves the state of `c8world`
unchanged. -/
theorem c8_failures_in_band_witness :
    (PendingTask.narrativeReq [{ name := "n", isReversed := false, id := 0 }] "q"
        ∈ c8world.pending) ∧
    (PendingTask.imageReq { name := "n", isReversed := false, id := 0 } ∈ c8world.pending) ∧
    (step zeroRand c8world
        (.resolveImage { name := "n", isReversed := false, id := 0 } none)).st = c8world.st :=
  ⟨by decide, by decide,
    (c8_failures_in_band zeroRand c8world [{ name := "n", isReversed := false, id := 0 }] "q"
      { name := "n", isReversed := false, id := 0 } (by decide) (by decide)).2.1⟩

/-- C9: a resolved artwork result is merged as a strict partial update
keyed by slot id: the step is exactly "set `imageUrl` on the matching
cards, consume the pending request, touch nothing else"; position `j` of
the merged list is position `j` of the old list with the update applied
exactly when its id matches; and when the three drawn cards carry
pairwise-distinct slot ids, every completion order of the narrative
request and the three artwork requests produces the same final world. -/
theorem c9_artwork_merge (rand : ℕ → ℚ) (w : World) (c1 c2 c3 : CardData) (q : String)
    (resN res1 res2 res3 : Option String) (u : String)
    (h12 : c1.id ≠ c2.id) (h13 : c1.id ≠ c3.id) (h23 : c2.id ≠ c3.id) :
    (PendingTask.imageReq c1 ∈ w.pending →
      step rand w (.resolveImage c1 (some u)) =
        { w with
          st := { w.st with selectedCards := mergeArtwork c1.id u w.st.selectedCards }
          pending := w.pending.erase (.imageReq c1) }) ∧
    (∀ (cards : List CardData) (j : ℕ), (mergeArtwork c1.id u cards).get? j =
      (cards.get? j).map (fun c => if c.id = c1.id then { c with imageUrl := some u } else c)) ∧
    (∀ l : List Event,
      l.Perm [.resolveNarrative [c1, c2, c3] q resN,
              .resolveImage c1 res1, .resolveImage c2 res2, .resolveImage c3 res3] →
      run rand w l =
      run rand w [.resolveNarrative [c1, c2, c3] q resN,
                  .resolveImage c1 res1, .resolveImage c2 res2, .resolveImage c3 res3]) := by
  refine ⟨?_, ?_, ?_⟩
  · intro him
    simp [step, completeTask, him, imageUpdate]
  · intro cards j
    simp [mergeArtwork, List.get?_map]
  · intro l hperm
    refine run_perm_of_comm rand hperm ?_ w
    intro e₁ m1 e₂ m2 z
    have m1' := hperm.mem_iff.mp m1
    have m2' := hperm.mem_iff.mp m2
    simp only [List.mem_cons, List.not_mem_nil, or_false] at m1' m2'
    rcases m1' with rfl | rfl | rfl | rfl <;> rcases m2' with rfl | rfl | rfl | rfl <;>
      first
        | rfl
        | exact stepNI_comm rand _ _ _ _ _ z
        | exact (stepNI_comm rand _ _ _ _ _ z).symm
        | exact stepII_comm rand _ _ h12 _ _ z
        | exact stepII_comm rand _ _ h13 _ _ z
        | exact stepII_comm rand _ _ h23 _ _ z
        | exact stepII_comm rand _ _ h12.symm _ _ z
        | exact stepII_comm rand _ _ h13.symm _ _ z
        | exact stepII_comm rand _ _ h23.symm _ _ z

/-- The three drawn cards of the C9 witness world. -/
def c9cards : List CardData :=
  [{ name := "x", isReversed := false, id := 0 },
   { name := "y", isReversed := false, id := 1 },
   { name := "z", isReversed := true, id := 2 }]

/-- A reading-state world with the narrative request and all three image
requests of `c9cards` in flight. -/
def c9world : World :=
  { st := { gameState := .reading
            question := "q"
            deck := []
            selectedCards := c9cards
            reading := ""
            loadingReading := true
            layoutSeed := 1
            screenWidth := 1000
            cardLayout := [] }
    cursor := 0
    pending := [.imageReq { name := "x", isReversed := false, id := 0 },
                .imageReq { name := "y", isReversed := false, id := 1 },
                .imageReq { name := "z", isReversed := true, id := 2 },
                .narrativeReq c9cards "q"] }

/-- Witness for C9: running the four completions of `c9world` in reverse
order gives the same final world as the forward order. -/
theorem c9_artwork_merge_witness :
    (({ name := "x", isReversed := false, id := 0 } : CardData).id ≠
      ({ name := "y", isReversed := false, id := 1 } : CardData).id ∧
     ({ name := "x", isReversed := false, id := 0 } : CardData).id ≠
      ({ name := "z", isReversed := true, id := 2 } : CardData).id ∧
     ({ name := "y", isReversed := false, id := 1 } : CardData).id ≠
      ({ name := "z", isReversed := true, id := 2 } : CardData).id) ∧
    run zeroRand c9world
      [.resolveImage { name := "z", isReversed := true, id := 2 } (some "u3"),
       .resolveImage { name := "y", isReversed := false, id := 1 } none,
       .resolveImage { name := "x", isReversed := false, id := 0 } (some "u1"),
       .resolveNarrative c9cards "q" (some "t")] =
    run zeroRand c9world
      [.resolveNarrative c9cards "q" (some "t"),
       .resolveImage { name := "x", isReversed := false, id := 0 } (some "u1"),
       .resolveImage { name := "y", isReversed := false, id := 1 } none,
       .resolveImage { name := "z", isReversed := true, id := 2 } (some "u3")] :=
  ⟨⟨by decide, by decide, by decide⟩,
    (c9_artwork_merge zeroRand c9world
      { name := "x", isReversed := false, id := 0 }
      { name := "y", isReversed := false, id := 1 }
      { name := "z", isReversed := true, id := 2 } "q"
      (some "t") (some "u1") none (some "u3") "u"
      (by decide) (by decide) (by decide)).2.2
      [.resolveImage { name := "z", isReversed := true, id := 2 } (some "u3"),
       .resolveImage { name := "y", isReversed := false, id := 1 } none,
       .resolveImage { name := "x", isReversed := false, id := 0 } (some "u1"),
       .resolveNarrative c9cards "q" (some "t")] (by decide)⟩

set_option maxRecDepth 4000 in
/-- C10: over all 78 deck entries, the metadata derivation — a total pure
function — classifies correctly despite substring matching: `isMajor`
holds exactly for the 22 Major Arcana strings; the numeral is a non-empty
Roman-numeral string (ordinal 0 rendered `"0"`) computed from the entry's
ordinal exactly for majors and empty for the 56 minors; the suit is
`"Major"` for majors and for each minor is one of the four suit tags and
occurs in the entry's own name. -/
theorem c10_metadata : ∀ name ∈ FULL_DECK,
    ((getCardMetadata name).isMajor = true ↔ name ∈ MAJOR_ARCANA) ∧
    ((getCardMetadata name).number ≠ "" ↔ name ∈ MAJOR_ARCANA) ∧
    (name ∈ MAJOR_ARCANA →
      (getCardMetadata name).number = toRoman (MAJOR_ARCANA.findIdx (fun m => m == name)) ∧
      (getCardMetadata name).number =
        romanNumerals22.getD (MAJOR_ARCANA.findIdx (fun m => m == name)) "" ∧
      (getCardMetadata name).suit = "Major") ∧
    (name ∉ MAJOR_ARCANA →
      (getCardMetadata name).number = "" ∧
      (getCardMetadata name).suit ∈ ["Wands", "Cups", "Swords", "Pentacles"] ∧
      jsIncludes name ((getCardMetadata name).suit) = true) ∧
    toRoman 0 = "0" := by decide

/-- Witness for C10 at the first deck entry. -/
theorem c10_metadata_witness :
    ("The Fool (愚者)" ∈ FULL_DECK) ∧
    ((getCardMetadata "The Fool (愚者)").isMajor = true ↔
      "The Fool (愚者)" ∈ MAJOR_ARCANA) :=
  ⟨by decide, (c10_metadata "The Fool (愚者)" (by decide)).1⟩

/-! ### C1: stale timers and stale in-flight results after a reset -/

/-- The constant one-half stream driving the C1 trace. -/
def c1rand : ℕ → ℚ := fun _ => 1/2

/-- Session A's first drawn card (stream cells 88, 89, slot 0). -/
def c1a0 : CardData := drawCard FULL_DECK (c1rand 88) (c1rand 89) 0

/-- Session A's second drawn card. -/
def c1a1 : CardData := drawCard FULL_DECK (c1rand 90) (c1rand 91) 1

/-- Session A's third drawn card. -/
def c1a2 : CardData := drawCard FULL_DECK (c1rand 92) (c1rand 93) 2

/-- Session A's completed three-card selection. -/
def c1cards : List CardData := [c1a0, c1a1, c1a2]

/-- Session B's first drawn card: the new session after the reset also
selects slot 0 (stream cells 138, 139). -/
def c1bCard : CardData := drawCard FULL_DECK (c1rand 138) (c1rand 139) 0

/-- Session A after its three selections: the 1-second pre-reading timer
is pending. -/
def c1w6 : World :=
  { st := { gameState := .selecting, question := "q", deck := FULL_DECK,
            selectedCards := c1cards, reading := "", loadingReading := false,
            layoutSeed := 1, screenWidth := 1000,
            cardLayout := cardLayoutGen false c1rand 44 }
    cursor := 94
    pending := [.preReadingTimer c1cards "q"] }

theorem c1w6_eq :
    run c1rand (mountWorld c1rand)
      [.setQuestion "q", .start, .fireShuffleTimer, .selectSlot 0, .selectSlot 1, .selectSlot 2]
      = c1w6 := by rfl

/-- Session A after the pre-reading timer fired: three image requests and
the narrative request are in flight. -/
def c1w7 : World :=
  { st := { gameState := .reading, question := "q", deck := FULL_DECK,
            selectedCards := c1cards, reading := "", loadingReading := true,
            layoutSeed := 1, screenWidth := 1000,
            cardLayout := cardLayoutGen false c1rand 44 }
    cursor := 94
    pending := [.imageReq c1a0, .imageReq c1a1, .imageReq c1a2, .narrativeReq c1cards "q"] }

theorem c1w7_eq : step c1rand c1w6 (.firePreReadingTimer c1cards "q") = c1w7 := by
  simp only [step, c1w6]
  rw [if_pos (List.mem_singleton.mpr rfl)]
  simp [c1w7, c1cards, List.erase_cons, beq_self_eq_true]

/-- Session A after its narrative resolved; the three image requests are
still in flight and the reset button is now visible (reading state, not
loading). -/
def c1w8 : World :=
  { st := { gameState := .reading, question := "q", deck := FULL_DECK,
            selectedCards := c1cards, reading := "ok", loadingReading := false,
            layoutSeed := 1, screenWidth := 1000,
            cardLayout := cardLayoutGen false c1rand 44 }
    cursor := 94
    pending := [.imageReq c1a0, .imageReq c1a1, .imageReq c1a2] }

theorem c1w8_eq : step c1rand c1w7 (.resolveNarrative c1cards "q" (some "ok")) = c1w8 := by
  simp only [step, completeTask, c1w7]
  rw [if_pos (by simp [beq_iff_eq])]
  simp [c1w8, narrativeUpdate, narrativeText, List.erase_cons, beq_self_eq_true,
    show ("ok".isEmpty) = false from rfl]

/-- Session B (after A was reset): question `"q2"`, one card drawn at slot
0 — while session A's three image requests are still pending. -/
def c1w13 : World :=
  { st := { gameState := .selecting, question := "q2", deck := FULL_DECK,
            selectedCards := [c1bCard], reading := "", loadingReading := false,
            layoutSeed := 2, screenWidth := 1000,
            cardLayout := cardLayoutGen false c1rand 94 }
    cursor := 140
    pending := [.imageReq c1a0, .imageReq c1a1, .imageReq c1a2] }

theorem c1w13_eq :
    run c1rand c1w8 [.reset, .setQuestion "q2", .start, .fireShuffleTimer, .selectSlot 0]
      = c1w13 := by rfl

theorem c1merge_eq : step c1rand c1w13 (.resolveImage c1a0 (some "stale")) =
    { c1w13 with
      st := { c1w13.st with selectedCards := [{ c1bCard with imageUrl := some "stale" }] }
      pending := [.imageReq c1a1, .imageReq c1a2] } := by
  simp only [step, completeTask, c1w13]
  rw [if_pos (List.mem_cons_self _ _)]
  simp [imageUpdate, mergeArtwork, c1bCard, drawCard, List.erase_cons, beq_self_eq_true,
    show c1a0.id = 0 from rfl]

/-- C1 (failing run): the handlers carry no session-generation tag, so
stale asynchronous work survives a reset.  In the trace below, session A
runs to its reading (events 1-8), is reset from the visible
reading-and-not-loading screen (event 9) while its three image requests
are in flight, and session B then starts and draws slot 0 (events 10-13):
resolving A's stale image request for slot 0 (event 14) attaches A's
artwork to B's freshly drawn card instead of being discarded.  The last
two conjuncts exhibit the stale-timer half: a reset between `start` and
the 2.5-second timer leaves the timer pending, and its firing drags the
new `input`-state session into `selecting`. -/
theorem c1_stale_async_mutates_new_session :
    run c1rand (mountWorld c1rand)
      [.setQuestion "q", .start, .fireShuffleTimer, .selectSlot 0, .selectSlot 1, .selectSlot 2,
       .firePreReadingTimer c1cards "q", .resolveNarrative c1cards "q" (some "ok"),
       .reset, .setQuestion "q2", .start, .fireShuffleTimer, .selectSlot 0] = c1w13 ∧
    c1w13.st.selectedCards = [c1bCard] ∧
    c1bCard.imageUrl = none ∧
    PendingTask.imageReq c1a0 ∈ c1w13.pending ∧
    (step c1rand c1w13 (.resolveImage c1a0 (some "stale"))).st.selectedCards
      = [{ c1bCard with imageUrl := some "stale" }] ∧
    (run c1rand (mountWorld c1rand) [.setQuestion "q", .start, .reset]).st.gameState
      = .input ∧
    (run c1rand (mountWorld c1rand)
      [.setQuestion "q", .start, .reset, .fireShuffleTimer]).st.gameState = .selecting := by
  refine ⟨?_, rfl, rfl, List.mem_cons_self _ _, ?_, rfl, rfl⟩
  · calc run c1rand (mountWorld c1rand)
          [.setQuestion "q", .start, .fireShuffleTimer, .selectSlot 0, .selectSlot 1,
           .selectSlot 2, .firePreReadingTimer c1cards "q",
           .resolveNarrative c1cards "q" (some "ok"),
           .reset, .setQuestion "q2", .start, .fireShuffleTimer, .selectSlot 0]
        = run c1rand
            (step c1rand
              (step c1rand
                (run c1rand (mountWorld c1rand)
                  [.setQuestion "q", .start, .fireShuffleTimer,
                   .selectSlot 0, .selectSlot 1, .selectSlot 2])
                (.firePreReadingTimer c1cards "q"))
              (.resolveNarrative c1cards "q" (some "ok")))
            [.reset, .setQuestion "q2", .start, .fireShuffleTimer, .selectSlot 0] := rfl
      _ = c1w13 := by rw [c1w6_eq, c1w7_eq, c1w8_eq, c1w13_eq]
  · rw [c1merge_eq]

/-! ### C2: display resize re-rolls the layout jitter -/

/-- The injective stream `n ↦ n/1000` driving the C2 trace. -/
def c2rand : ℕ → ℚ := fun n => (n : ℚ)/1000

/-- A session in the `selecting` state at full width 1000, with the layout
drawn from stream cells 44-87 by the shuffle of its `start` event. -/
def c2before : World :=
  { st := { gameState := .selecting, question := "q", deck := FULL_DECK,
            selectedCards := [], reading := "", loadingReading := false,
            layoutSeed := 1, screenWidth := 1000,
            cardLayout := cardLayoutGen false c2rand 44 }
    cursor := 88
    pending := [] }

theorem c2before_eq :
    run c2rand (mountWorld c2rand) [.setQuestion "q", .start, .fireShuffleTimer] = c2before := by
  rfl

theorem c2layout_ne : cardLayoutGen false c2rand 88 ≠ cardLayoutGen false c2rand 44 := by
  intro h
  have h0 := congrArg (fun l => l.get? 0) h
  simp [cardLayoutGen, List.get?_map, LayoutSlot.mk.injEq] at h0
  norm_num [c2rand] at h0

/-- C2 (failing run): the layout memo lists `screenWidth` among its
dependencies (line 135), so a mere window resize from width 1000 to 900 —
both full-size, compactness unchanged, same shuffle (`layoutSeed` still
1), mid-`selecting` — recomputes the layout with 44 fresh random draws,
and the recomputed layout differs from the one the session's shuffle
produced.  This contradicts the claim that only a new shuffle re-draws
the jitter. -/
theorem c2_resize_rerolls_layout :
    run c2rand (mountWorld c2rand) [.setQuestion "q", .start, .fireShuffleTimer] = c2before ∧
    c2before.st.gameState = .selecting ∧
    c2before.st.screenWidth = 1000 ∧
    appIsMobile 900 = appIsMobile 1000 ∧
    (step c2rand c2before (.resize 900)).st.gameState = .selecting ∧
    (step c2rand c2before (.resize 900)).st.layoutSeed = c2before.st.layoutSeed ∧
    (step c2rand c2before (.resize 900)).st.cardLayout = cardLayoutGen false c2rand 88 ∧
    c2before.st.cardLayout = cardLayoutGen false c2rand 44 ∧
    (step c2rand c2before (.resize 900)).st.cardLayout ≠ c2before.st.cardLayout :=
  ⟨c2before_eq, rfl, rfl, rfl, rfl, rfl, rfl, rfl, c2layout_ne⟩

end TarotApp
